import Mathlib

/-!
Shallow embedding of the Stash client (React Native frontend) and the
spec-modelled parts of its backend, with theorems settling the frozen
claims about the repository.

The client code lives under src/frontend (and the unnamed parts): zustand
stores (itemsStore, collectionsStore, authStore), the shared axios client
(utils/api.ts and its AsyncStorage variant), and the screen-level handlers
on the collections, add-item, item-detail and search screens.  Network and
UI effects are made explicit: store operations take the response the
request would yield as a parameter, and handlers return an effect trace
(alerts, console logs, requests) next to the updated state.
-/

namespace Stash

/-- User document (src/frontend/src/types, interface User). -/
structure User where
  id : String
  email : String
  name : Option String := none
  plan_type : String
  is_pro : Option Bool := none
  created_at : String
deriving DecidableEq, Repr

/-- SavedItem document (src/frontend/src/types, interface SavedItem). -/
structure SavedItem where
  id : String
  user_id : String
  url : String
  title : String
  thumbnail_url : Option String := none
  platform : String
  content_type : String
  notes : String
  tags : List String
  collections : List String
  created_at : String
deriving DecidableEq, Repr

/-- Collection document (src/frontend/src/types, interface Collection). -/
structure Collection where
  id : String
  user_id : String
  name : String
  item_count : Nat
  created_at : String
deriving DecidableEq, Repr

/-- Smart tag suggestion (app/item/[id].tsx, interface SmartTag). -/
structure SmartTag where
  name : String
  confidence : String
  cluster : String
  is_new : Bool
deriving DecidableEq, Repr

/-- JavaScript String.prototype.trim: strips whitespace from both ends. -/
def jsTrim (s : String) : String :=
  String.mk
    (((s.data.dropWhile Char.isWhitespace).reverse.dropWhile
        Char.isWhitespace).reverse)

/-- JavaScript String.prototype.toLowerCase on the characters. -/
def jsToLower (s : String) : String := String.mk (s.data.map Char.toLower)

/-- JavaScript String.prototype.startsWith. -/
def jsStartsWith (s pre : String) : Bool := pre.data.isPrefixOf s.data

/-- Outcome of an HTTP call as the client observes it: either the parsed
response body, or an axios error carrying the HTTP status and the
response detail string. -/
inductive ApiResponse (α : Type) where
  | ok (value : α)
  | err (status : Nat) (detail : String)
deriving DecidableEq, Repr

/-- UI and IO effects a screen handler can perform. -/
inductive Effect where
  | alert (title : String) (message : String)
  | consoleLog (message : String)
  | request (url : String)
deriving DecidableEq, Repr

/-- True when the effect trace contains an Alert.alert call. -/
def hasAlert (es : List Effect) : Bool :=
  es.any (fun e =>
    match e with
    | Effect.alert _ _ => true
    | _ => false)

/-- True when the effect trace contains a network request. -/
def hasRequest (es : List Effect) : Bool :=
  es.any (fun e =>
    match e with
    | Effect.request _ => true
    | _ => false)

/-! ## Shared API client (src/frontend/src/utils/api.ts and part_010) -/

/-- Request headers relevant to the embedding.  The axios instance is
created with a Content-Type header and no Authorization header. -/
structure Headers where
  contentType : Option String
  authorization : Option String
deriving DecidableEq, Repr

/-- Headers of the axios instance as created (api.ts lines 4-9). -/
def defaultHeaders : Headers :=
  { contentType := some "application/json", authorization := none }

/-- Request interceptor (api.ts lines 21-29, part_010 lines 26-36):
JavaScript runs the header assignment under `if (token)`, which is the
string-truthiness test, so a held empty-string token attaches nothing. -/
def requestInterceptor (authToken : Option String) (h : Headers) : Headers :=
  match authToken with
  | some t =>
      if t ≠ "" then { h with authorization := some ("Bearer " ++ t) }
      else h
  | none => h

/-- Response interceptor (part_010 lines 38-48): a 401 error clears the
persisted auth storage (AsyncStorage key auth-storage), and every error is
re-rejected unchanged.  The storage cell is the raw stored value. -/
def responseInterceptor {α : Type} (storage : Option String)
    (r : ApiResponse α) : Option String × ApiResponse α :=
  match r with
  | ApiResponse.ok v => (storage, ApiResponse.ok v)
  | ApiResponse.err status d =>
      (if status = 401 then none else storage, ApiResponse.err status d)

/-! ## Items and collections stores
(src/frontend/src/store/itemsStore.ts and part_014 collectionsStore) -/

/-- Combined client-side store state: the items slice of itemsStore and
the collections slice of collectionsStore. -/
structure ClientState where
  items : List SavedItem
  collections : List Collection
deriving DecidableEq, Repr

/-- itemsStore.addItem (itemsStore.ts lines 44-53): posts the item; on
success prepends the returned item to the items state and returns it; on
error the state is untouched and the error is rethrown. -/
def addItem (st : ClientState) (resp : ApiResponse SavedItem) :
    ClientState × ApiResponse SavedItem :=
  match resp with
  | ApiResponse.ok item =>
      ({ st with items := item :: st.items }, ApiResponse.ok item)
  | ApiResponse.err s d => (st, ApiResponse.err s d)

/-- itemsStore.deleteItem (itemsStore.ts lines 68-77): on success filters
the item with that id out of the items state; on error the state is
untouched. -/
def deleteItem (st : ClientState) (id : String) (resp : ApiResponse Unit) :
    ClientState :=
  match resp with
  | ApiResponse.ok _ =>
      { st with items := st.items.filter (fun it => it.id != id) }
  | ApiResponse.err _ _ => st

/-- collectionsStore.addCollection (part_014 lines 37-44): on success
appends the returned collection to the collections state. -/
def addCollection (st : ClientState) (resp : ApiResponse Collection) :
    ClientState × ApiResponse Collection :=
  match resp with
  | ApiResponse.ok c =>
      ({ st with collections := st.collections ++ [c] }, ApiResponse.ok c)
  | ApiResponse.err s d => (st, ApiResponse.err s d)

/-- collectionsStore.deleteCollection (part_014 lines 57-64): on success
filters the collection with that id out of the collections state; the
items slice is never touched. -/
def deleteCollection (st : ClientState) (id : String)
    (resp : ApiResponse Unit) : ClientState :=
  match resp with
  | ApiResponse.ok _ =>
      { st with collections := st.collections.filter (fun c => c.id != id) }
  | ApiResponse.err _ _ => st

/-- itemsStore.searchItems (itemsStore.ts lines 87-91): a query that is
empty or shorter than 2 characters short-circuits to an empty result with
no request; otherwise the search request is issued and its response
returned.  The store state is never written.  Returns the (unchanged)
state, the result, and the list of requests issued. -/
def searchItems (st : ClientState) (query : String)
    (resp : ApiResponse (List SavedItem)) :
    ClientState × ApiResponse (List SavedItem) × List Effect :=
  if query = "" ∨ query.length < 2 then
    (st, ApiResponse.ok [], [])
  else
    (st, resp, [Effect.request ("/search?q=" ++ query)])

/-! ## Auth store (src/frontend/src/store/authStore.ts) -/

/-- State of useAuthStore (authStore.ts lines 7-24). -/
structure AuthState where
  user : Option User
  token : Option String
  isLoading : Bool
  isAuthenticated : Bool
deriving DecidableEq, Repr

/-- Initial auth store state (authStore.ts lines 21-24). -/
def initialAuthState : AuthState :=
  { user := none, token := none, isLoading := false, isAuthenticated := false }

/-- Outcome of the login or register request: the AuthResponse body on
success, or the error detail. -/
inductive AuthResult where
  | success (accessToken : String) (user : User)
  | failure (detail : String)
deriving DecidableEq, Repr

/-- Outcome of the GET /auth/me request used by checkAuth. -/
inductive MeResult where
  | success (user : User)
  | failure
deriving DecidableEq, Repr

/-- authStore.login (authStore.ts lines 26-43): on success stores the
user, the access token and isAuthenticated true; on failure only
isLoading is reset and the error is rethrown. -/
def login (st : AuthState) (r : AuthResult) : AuthState :=
  match r with
  | AuthResult.success tok u =>
      { st with user := some u, token := some tok,
                isAuthenticated := true, isLoading := false }
  | AuthResult.failure _ => { st with isLoading := false }

/-- authStore.register (authStore.ts lines 45-63): same state effect as
login, fed by the register endpoint. -/
def register (st : AuthState) (r : AuthResult) : AuthState :=
  match r with
  | AuthResult.success tok u =>
      { st with user := some u, token := some tok,
                isAuthenticated := true, isLoading := false }
  | AuthResult.failure _ => { st with isLoading := false }

/-- authStore.logout (authStore.ts lines 65-71). -/
def logout (st : AuthState) : AuthState :=
  { st with user := none, token := none, isAuthenticated := false }

/-- authStore.checkAuth (authStore.ts lines 73-92): with no token it only
clears isAuthenticated; with a token it fetches /auth/me, storing the
user on success and clearing everything on failure. -/
def checkAuth (st : AuthState) (r : MeResult) : AuthState :=
  match st.token with
  | none => { st with isAuthenticated := false }
  | some _ =>
      match r with
      | MeResult.success u =>
          { st with user := some u, isAuthenticated := true }
      | MeResult.failure =>
          { st with user := none, token := none, isAuthenticated := false }

/-- Persistence rehydration (authStore.ts lines 94-98): partialize keeps
only token and user, so rehydration merges the persisted token and user
over the initial state and isAuthenticated keeps its initial false. -/
def rehydrate (persistedToken : Option String) (persistedUser : Option User) :
    AuthState :=
  { initialAuthState with token := persistedToken, user := persistedUser }

/-- One auth store operation together with the response it observed. -/
inductive AuthOp where
  | login (r : AuthResult)
  | register (r : AuthResult)
  | logout
  | checkAuth (r : MeResult)
deriving DecidableEq, Repr

/-- Applies one auth store operation. -/
def authStep (st : AuthState) (op : AuthOp) : AuthState :=
  match op with
  | AuthOp.login r => login st r
  | AuthOp.register r => register st r
  | AuthOp.logout => logout st
  | AuthOp.checkAuth r => checkAuth st r

/-- States of the auth store reachable from the initial state or from a
persistence rehydration by login, register, logout and checkAuth. -/
inductive AuthReachable : AuthState → Prop where
  | init : AuthReachable initialAuthState
  | rehydrated (t : Option String) (u : Option User) :
      AuthReachable (rehydrate t u)
  | step (st : AuthState) (op : AuthOp) :
      AuthReachable st → AuthReachable (authStep st op)

/-! ## Collections screen (part_003, CollectionsScreen) -/

/-- Slice of the collections screen state the limit check reads and
writes: the signed-in user, the collections list from the store, and the
modal fields. -/
structure CollectionsScreenState where
  user : Option User
  collections : List Collection
  showModal : Bool
  newName : String
  editingId : Option String
deriving DecidableEq, Repr

/-- maxCollections (part_003 line 35): Infinity (none) for a pro user,
otherwise 5. -/
def maxCollections (user : Option User) : Option Nat :=
  match user with
  | some u => if u.plan_type = "pro" then none else some 5
  | none => some 5

/-- Alert message of the collection limit alert (part_003 line 60). -/
def collectionLimitMessage (m : Nat) : String :=
  "Free plan is limited to " ++ toString m ++
    " collections. Upgrade to Pro for unlimited collections."

/-- handleOpenModal (part_003 lines 52-69): with a collection argument it
opens the modal in edit mode; with none it first checks the limit
(collections.length >= maxCollections, false against Infinity) and on a
hit shows the limit alert and returns without opening the modal or
issuing any request. -/
def handleOpenModal (st : CollectionsScreenState)
    (arg : Option (String × String)) :
    CollectionsScreenState × List Effect :=
  match arg with
  | some (cid, cname) =>
      ({ st with editingId := some cid, newName := cname, showModal := true },
       [])
  | none =>
      match maxCollections st.user with
      | some m =>
          if m ≤ st.collections.length then
            (st, [Effect.alert "Collection Limit Reached"
                    (collectionLimitMessage m)])
          else
            ({ st with editingId := none, newName := "", showModal := true },
             [])
      | none =>
          ({ st with editingId := none, newName := "", showModal := true },
           [])

/-! ## Item detail screen (src/frontend/app/item/[id].tsx) -/

/-- generateAISummary (item/[id].tsx lines 107-124) restricted to its
response handling: a successful response with a nonempty summary replaces
the aiSummary state; an error is logged to the console and nothing else
happens — in particular no alert dialog is shown.  Returns the new
aiSummary state and the effect trace after the request. -/
def generateAISummary (aiSummary : List String)
    (resp : ApiResponse (List String)) : List String × List Effect :=
  match resp with
  | ApiResponse.ok summary =>
      (if summary.length > 0 then summary else aiSummary, [])
  | ApiResponse.err _ _ =>
      (aiSummary, [Effect.consoleLog "AI summary error:"])

/-- handleSave on the item detail screen (item/[id].tsx lines 230-246),
restricted to its effect trace: success and failure both surface an alert
dialog. -/
def handleSaveDetail (resp : ApiResponse SavedItem) : List Effect :=
  match resp with
  | ApiResponse.ok _ => [Effect.alert "Success" "Changes saved"]
  | ApiResponse.err _ _ => [Effect.alert "Error" "Failed to save changes"]

/-- Tag editor slice of the item detail and add-item screens: the edited
tag list, the tag input field, and the smart tag suggestions. -/
structure TagEditorState where
  tags : List String
  tagInput : String
  smartTags : List SmartTag
deriving DecidableEq, Repr

/-- handleAddTag (item/[id].tsx lines 277-283 and add-item.tsx lines
73-79): trims and lowercases the input, appends it when it is nonempty
and not already present, and always resets the input field. -/
def handleAddTag (st : TagEditorState) : TagEditorState :=
  let tag := jsToLower (jsTrim st.tagInput)
  if tag ≠ "" ∧ tag ∉ st.tags then
    { st with tags := st.tags ++ [tag], tagInput := "" }
  else
    { st with tagInput := "" }

/-- handleRemoveTag (item/[id].tsx lines 285-287 and add-item.tsx lines
81-83). -/
def handleRemoveTag (st : TagEditorState) (t : String) : TagEditorState :=
  { st with tags := st.tags.filter (fun x => x != t) }

/-- applySmartTag (item/[id].tsx lines 199-215) restricted to its state
effect on success: appends the tag name when not already present and
removes it from the suggestions. -/
def applySmartTag (st : TagEditorState) (name : String) : TagEditorState :=
  { st with
      tags := if name ∈ st.tags then st.tags else st.tags ++ [name],
      smartTags := st.smartTags.filter (fun t => t.name != name) }

/-- One user step on the tag editor: typing into the input, pressing add,
removing a tag, or approving a smart tag. -/
inductive TagStep where
  | setInput (s : String)
  | add
  | remove (t : String)
  | approve (name : String)
deriving DecidableEq, Repr

/-- Applies one tag editor step. -/
def tagStep (st : TagEditorState) : TagStep → TagEditorState
  | TagStep.setInput s => { st with tagInput := s }
  | TagStep.add => handleAddTag st
  | TagStep.remove t => handleRemoveTag st t
  | TagStep.approve name => applySmartTag st name

/-- Runs a sequence of tag editor steps. -/
def runTagSteps (st : TagEditorState) (steps : List TagStep) : TagEditorState :=
  steps.foldl tagStep st

/-! ## Per-action in-flight machine (item/[id].tsx)

Each AI action on the item detail screen owns a flag (isGeneratingSummary
and its analogues); its trigger control is rendered with disabled equal to
the flag (lines 346-362), the handler sets the flag before issuing the
request (line 109) and clears it in finally (line 122). -/

/-- State of one action: its in-flight flag and the number of outstanding
requests of that action. -/
structure ActionState where
  flag : Bool
  inFlight : Nat
deriving DecidableEq, Repr

/-- Initial action state: flag false, no outstanding request. -/
def initialActionState : ActionState := { flag := false, inFlight := 0 }

/-- Transitions of one action: a press is only delivered while the
control is enabled (flag false) and issues one request while setting the
flag; a completion of an outstanding request clears the flag. -/
inductive ActionStep : ActionState → ActionState → Prop where
  | press (s : ActionState) (henabled : s.flag = false) :
      ActionStep s { flag := true, inFlight := s.inFlight + 1 }
  | complete (s : ActionState) (n : Nat) (hpending : s.inFlight = n + 1) :
      ActionStep s { flag := false, inFlight := n }

/-- Action states reachable from the initial state. -/
inductive ActionReachable : ActionState → Prop where
  | init : ActionReachable initialActionState
  | step (s t : ActionState) :
      ActionReachable s → ActionStep s t → ActionReachable t

/-! ## Add-item screen (src/frontend/app/add-item.tsx) -/

/-- URL normalization used by handleSave (add-item.tsx line 101). -/
def buildFullUrl (url : String) : String :=
  if jsStartsWith url "http" then url else "https://" ++ url

/-- Body of the POST /items request addItem sends (add-item.tsx lines
102-110 spread into itemsStore.addItem line 46). -/
structure CreateItemRequest where
  url : String
  title : String
  thumbnail_url : Option String
  platform : String
  content_type : String
  notes : String
  tags : List String
  collections : List String
deriving DecidableEq, Repr

/-- Input slice of the add-item screen handleSave reads. -/
structure AddItemState where
  url : String
  title : String
  notes : String
  tags : List String
  selectedCollections : List String
  metadataPlatform : Option String
  metadataContentType : Option String
  metadataThumbnail : Option String
deriving DecidableEq, Repr

/-- handleSave (add-item.tsx lines 93-117) up to the request it issues: a
blank URL aborts with an alert and no request; otherwise the request body
is built from the screen state (title falling back to the full URL,
metadata falling back to Web and article). -/
def handleSaveRequest (st : AddItemState) : Option CreateItemRequest :=
  if jsTrim st.url = "" then none
  else
    some
      { url := buildFullUrl st.url
        title := if st.title = "" then buildFullUrl st.url else st.title
        thumbnail_url := st.metadataThumbnail
        platform := st.metadataPlatform.getD "Web"
        content_type := st.metadataContentType.getD "article"
        notes := st.notes
        tags := st.tags
        collections := st.selectedCollections }

/-! ## Spec-modelled backend

The API service itself is not under src/ — only its client callers are.
The definitions below are modelled from the spec. -/

/-- Server-side persisted documents. -/
structure ServerState where
  itemsDb : List SavedItem
deriving DecidableEq, Repr

/-- Error detail of the free save limit rejection (modelled). -/
def freeLimitDetail : String :=
  "Free plan save limit reached. Upgrade to Pro for unlimited saves."

/-- Modelled from the spec: the backend create-item handler is missing
from src/.  Per the spec the backend is a thin CRUD API persisting the
request document verbatim, a free-tier user may not exceed a fixed item
count, and tier-gated rejections surface as HTTP 403; so creation for a
free-tier (non-pro) user already holding freeLimit items is rejected with
403 and stores nothing, and otherwise the document is stored verbatim
under a server-assigned id and timestamp. -/
def serverCreateItem (freeLimit : Nat) (newId createdAt : String) (u : User)
    (s : ServerState) (req : CreateItemRequest) :
    ServerState × ApiResponse SavedItem :=
  if u.plan_type ≠ "pro" ∧
      freeLimit ≤ (s.itemsDb.filter (fun it => it.user_id == u.id)).length then
    (s, ApiResponse.err 403 freeLimitDetail)
  else
    let item : SavedItem :=
      { id := newId, user_id := u.id, url := req.url, title := req.title,
        thumbnail_url := req.thumbnail_url, platform := req.platform,
        content_type := req.content_type, notes := req.notes,
        tags := req.tags, collections := req.collections,
        created_at := createdAt }
    ({ s with itemsDb := item :: s.itemsDb }, ApiResponse.ok item)

/-- Modelled from the spec: the backend get-item handler is missing from
src/; a thin CRUD read returns the stored document with that id. -/
def serverGetItem (s : ServerState) (id : String) : Option SavedItem :=
  s.itemsDb.find? (fun it => it.id == id)

/-! ## Concrete fixtures used by witnesses and counterexamples -/

/-- A free-tier sample user. -/
def sampleUser : User :=
  { id := "u1", email := "u1@example.com", plan_type := "free",
    created_at := "2025-01-01" }

/-- A sample saved item owned by the sample user. -/
def sampleItem : SavedItem :=
  { id := "it1", user_id := "u1", url := "https://example.com",
    title := "Example", platform := "Web", content_type := "article",
    notes := "", tags := ["a"], collections := [],
    created_at := "2025-01-01" }

/-- A sample collection owned by the sample user. -/
def sampleCollection : Collection :=
  { id := "c1", user_id := "u1", name := "Reading", item_count := 0,
    created_at := "2025-01-01" }

/-- Collections screen of a free-tier user already holding 5 collections. -/
def freeScreenAtLimit : CollectionsScreenState :=
  { user := some sampleUser,
    collections := List.replicate 5 sampleCollection,
    showModal := false, newName := "", editingId := none }

/-- Add-item screen input with two tags. -/
def sampleAddState : AddItemState :=
  { url := "https://example.com", title := "Example", notes := "",
    tags := ["focus", "deep-work"], selectedCollections := [],
    metadataPlatform := none, metadataContentType := none,
    metadataThumbnail := none }

/-- The request handleSave builds from sampleAddState. -/
def sampleCreateRequest : CreateItemRequest :=
  { url := "https://example.com", title := "Example",
    thumbnail_url := none, platform := "Web", content_type := "article",
    notes := "", tags := ["focus", "deep-work"], collections := [] }

/-- The document the modelled backend stores for sampleCreateRequest. -/
def sampleCreatedItem : SavedItem :=
  { id := "it9", user_id := "u1", url := "https://example.com",
    title := "Example", thumbnail_url := none, platform := "Web",
    content_type := "article", notes := "",
    tags := ["focus", "deep-work"], collections := [],
    created_at := "2025-01-02" }

/-- Action state right after a press from the initial state. -/
def pressedActionState : ActionState := { flag := true, inFlight := 1 }

/-- Tag editor with one existing tag and an un-normalized input. -/
def tagWitnessState : TagEditorState :=
  { tags := ["focus"], tagInput := "  Deep-Work ", smartTags := [] }

/-! ## Helper lemmas -/

/-- Appending a fresh element preserves Nodup. -/
theorem nodup_append_single (l : List String) (a : String)
    (h : l.Nodup) (ha : a ∉ l) : (l ++ [a]).Nodup := by
  simp [List.nodup_append, h, ha]

/-- Every tag editor step preserves Nodup of the tag list. -/
theorem tagStep_nodup (st : TagEditorState) (s : TagStep)
    (h : st.tags.Nodup) : (tagStep st s).tags.Nodup := by
  cases s with
  | setInput s => exact h
  | add =>
      show (handleAddTag st).tags.Nodup
      simp only [handleAddTag]
      by_cases hc : jsToLower (jsTrim st.tagInput) ≠ "" ∧
          jsToLower (jsTrim st.tagInput) ∉ st.tags
      · rw [if_pos hc]
        exact nodup_append_single _ _ h hc.2
      · rw [if_neg hc]
        exact h
  | remove t => exact h.filter _
  | approve name =>
      show (applySmartTag st name).tags.Nodup
      simp only [applySmartTag]
      by_cases hm : name ∈ st.tags
      · rw [if_pos hm]
        exact h
      · rw [if_neg hm]
        exact nodup_append_single _ _ h hm

/-! ## Claims -/

/-- C2: deleting a collection does not delete its items — for every
collection id, deleteCollection leaves the items state (every saved item
with all of its fields) unchanged whatever the response was, and on
success removes from the collections state exactly the collections
carrying that id. -/
theorem c2_deleteCollection_frame :
    ∀ (st : ClientState) (id : String) (resp : ApiResponse Unit),
      (deleteCollection st id resp).items = st.items
      ∧ (∀ c : Collection,
          c ∈ (deleteCollection st id (ApiResponse.ok ())).collections ↔
            c ∈ st.collections ∧ c.id ≠ id) := by
  intro st id resp
  constructor
  · cases resp <;> rfl
  · intro c
    simp [deleteCollection, List.mem_filter]

/-- Witness for C2 at a concrete store state. -/
theorem c2_witness :
    (deleteCollection (ClientState.mk [sampleItem] [sampleCollection]) "c1"
        (ApiResponse.ok ())).items = [sampleItem]
    ∧ (sampleCollection ∈
        (deleteCollection (ClientState.mk [sampleItem] [sampleCollection]) "c1"
          (ApiResponse.ok ())).collections ↔
        sampleCollection ∈ [sampleCollection] ∧ sampleCollection.id ≠ "c1") :=
  ⟨(c2_deleteCollection_frame ⟨[sampleItem], [sampleCollection]⟩ "c1"
      (ApiResponse.ok ())).1,
   (c2_deleteCollection_frame ⟨[sampleItem], [sampleCollection]⟩ "c1"
      (ApiResponse.ok ())).2 sampleCollection⟩

/-- C9: short-query search guard — a query shorter than 2 characters
(the empty query included) makes searchItems return the empty list,
issue no request, and leave the store state unchanged. -/
theorem c9_short_query_guard :
    ∀ (st : ClientState) (query : String)
      (resp : ApiResponse (List SavedItem)),
      query.length < 2 →
      searchItems st query resp = (st, ApiResponse.ok [], []) := by
  intro st query resp h
  simp only [searchItems]
  rw [if_pos (Or.inr h)]

/-- Witness for C9 at the one-character query. -/
theorem c9_witness :
    searchItems (ClientState.mk [] []) "a" (ApiResponse.ok [sampleItem]) =
      (ClientState.mk [] [], ApiResponse.ok [], []) :=
  c9_short_query_guard ⟨[], []⟩ "a" (ApiResponse.ok [sampleItem]) (by decide)

/-- C3 counterexample: performing the same successful addItem request
twice does not leave the client state equal to performing it once — the
item is prepended twice. -/
theorem c3_counterexample :
    (addItem (addItem (ClientState.mk [] []) (ApiResponse.ok sampleItem)).1
        (ApiResponse.ok sampleItem)).1 ≠
      (addItem (ClientState.mk [] []) (ApiResponse.ok sampleItem)).1 := by
  decide

/-- C3 amended: retrying a successful delete is idempotent on the client
state (deleteItem and deleteCollection), but retrying a successful
addItem is not — each retry prepends the returned item again. -/
theorem c3_retry_idempotence :
    (∀ (st : ClientState) (id : String),
        deleteItem (deleteItem st id (ApiResponse.ok ())) id
            (ApiResponse.ok ()) =
          deleteItem st id (ApiResponse.ok ()))
    ∧ (∀ (st : ClientState) (id : String),
        deleteCollection (deleteCollection st id (ApiResponse.ok ())) id
            (ApiResponse.ok ()) =
          deleteCollection st id (ApiResponse.ok ()))
    ∧ (∀ (st : ClientState) (item : SavedItem),
        (addItem (addItem st (ApiResponse.ok item)).1
            (ApiResponse.ok item)).1.items = item :: item :: st.items) := by
  refine ⟨?_, ?_, ?_⟩
  · intro st id
    simp [deleteItem, List.filter_filter]
  · intro st id
    simp [deleteCollection, List.filter_filter]
  · intro st item
    rfl

/-- C6 counterexample: an empty-string token is non-null, yet the request
interceptor attaches no Authorization header for it, because the source
guards the assignment with JavaScript string truthiness. -/
theorem c6_counterexample :
    ¬ ((requestInterceptor (some "") defaultHeaders).authorization =
        some ("Bearer " ++ "")) := by
  decide

/-- C6 amended: for requests issued through the shared API client (whose
initial headers carry no Authorization), a held token that is non-null
and nonempty yields the header Authorization = "Bearer " followed by the
token; a null token — and likewise an empty one — yields no Authorization
header. -/
theorem c6_bearer_header :
    ∀ (t : String) (h : Headers),
      h.authorization = none →
      ((requestInterceptor (some t) h).authorization =
          (if t = "" then none else some ("Bearer " ++ t)))
      ∧ (requestInterceptor none h).authorization = none := by
  intro t h hnone
  constructor
  · by_cases ht : t = ""
    · simp [requestInterceptor, ht, hnone]
    · simp [requestInterceptor, ht]
  · exact hnone

/-- Witness for C6 at a concrete token and the default headers. -/
theorem c6_witness :
    ((requestInterceptor (some "jwt") defaultHeaders).authorization =
        (if "jwt" = "" then none else some ("Bearer " ++ "jwt")))
    ∧ (requestInterceptor none defaultHeaders).authorization = none :=
  c6_bearer_header "jwt" defaultHeaders rfl

/-- C5 counterexample: generateAISummary is a failing user action that
surfaces no alert dialog — on an error response its effect trace contains
no alert (the error is only logged to the console). -/
theorem c5_counterexample :
    hasAlert
      (generateAISummary [] (ApiResponse.err 500 "Internal Server Error")).2 =
      false := by
  decide

/-- C5 amended: a 401 response through the shared API client clears the
persisted auth storage and the call still rejects with the error; failing
mutation actions such as saving item changes surface the failure in an
alert dialog, but the AI-generation actions on the item detail screen
only log the failure to the console without an alert. -/
theorem c5_error_surfacing :
    (∀ (storage : Option String) (d : String),
        responseInterceptor storage
            (ApiResponse.err 401 d : ApiResponse SavedItem) =
          (none, ApiResponse.err 401 d))
    ∧ (∀ (s : Nat) (d : String),
        hasAlert (handleSaveDetail (ApiResponse.err s d)) = true)
    ∧ (∀ (summary : List String) (s : Nat) (d : String),
        hasAlert (generateAISummary summary (ApiResponse.err s d)).2 =
          false) := by
  refine ⟨?_, ?_, ?_⟩
  · intro storage d
    rfl
  · intro s d
    rfl
  · intro summary s d
    rfl

/-- C1: free-tier limits — opening the new-collection flow with the
free-tier maximum of 5 collections already held shows the limit alert
and leaves the screen state untouched (no modal, no request); and the
(spec-modelled) backend rejects an item save past the free save limit
with 403 while the client store leaves its items unchanged on any error
response. -/
theorem c1_free_tier_limits :
    (∀ (st : CollectionsScreenState) (u : User),
        st.user = some u → u.plan_type ≠ "pro" →
        5 ≤ st.collections.length →
        handleOpenModal st none =
          (st, [Effect.alert "Collection Limit Reached"
                  (collectionLimitMessage 5)]))
    ∧ (∀ (freeLimit : Nat) (nid cat : String) (u : User)
          (srv : ServerState) (req : CreateItemRequest),
        u.plan_type ≠ "pro" →
        freeLimit ≤
          (srv.itemsDb.filter (fun it => it.user_id == u.id)).length →
        serverCreateItem freeLimit nid cat u srv req =
          (srv, ApiResponse.err 403 freeLimitDetail))
    ∧ (∀ (cst : ClientState) (s : Nat) (d : String),
        addItem cst (ApiResponse.err s d) = (cst, ApiResponse.err s d)) := by
  refine ⟨?_, ?_, ?_⟩
  · intro st u hu hplan hlen
    simp only [handleOpenModal, maxCollections, hu]
    rw [if_neg hplan]
    simp [hlen]
  · intro freeLimit nid cat u srv req hplan hcount
    simp only [serverCreateItem]
    rw [if_pos ⟨hplan, hcount⟩]
  · intro cst s d
    rfl

/-- Witness for C1 at a free user holding 5 collections and a modelled
backend already at the save limit. -/
theorem c1_witness :
    handleOpenModal freeScreenAtLimit none =
      (freeScreenAtLimit,
        [Effect.alert "Collection Limit Reached" (collectionLimitMessage 5)])
    ∧ serverCreateItem 1 "it9" "2025-01-02" sampleUser
        (ServerState.mk [sampleItem]) sampleCreateRequest =
      (ServerState.mk [sampleItem], ApiResponse.err 403 freeLimitDetail)
    ∧ addItem (ClientState.mk [] []) (ApiResponse.err 403 freeLimitDetail) =
      (ClientState.mk [] [], ApiResponse.err 403 freeLimitDetail) :=
  ⟨c1_free_tier_limits.1 freeScreenAtLimit sampleUser rfl (by decide)
      (by decide),
   c1_free_tier_limits.2.1 1 "it9" "2025-01-02" sampleUser
      ⟨[sampleItem]⟩ sampleCreateRequest (by decide) (by decide),
   c1_free_tier_limits.2.2 ⟨[], []⟩ 403 freeLimitDetail⟩

/-- C4: round-trip of tags through save — when the add-item save flow
builds a request and the (spec-modelled) backend accepts it, the request
carries the screen tags unchanged, the stored item carries them, a
subsequent fetch of that item returns it, and addItem prepends it to the
client store. -/
theorem c4_tags_roundtrip :
    ∀ (st : AddItemState) (req : CreateItemRequest) (freeLimit : Nat)
      (nid cat : String) (u : User) (srv srv2 : ServerState)
      (item : SavedItem) (cst : ClientState),
      handleSaveRequest st = some req →
      serverCreateItem freeLimit nid cat u srv req =
        (srv2, ApiResponse.ok item) →
      req.tags = st.tags
      ∧ item.tags = st.tags
      ∧ serverGetItem srv2 nid = some item
      ∧ (addItem cst (ApiResponse.ok item)).1.items = item :: cst.items := by
  intro st req freeLimit nid cat u srv srv2 item cst hreq hsrv
  simp only [handleSaveRequest] at hreq
  by_cases hurl : jsTrim st.url = ""
  · rw [if_pos hurl] at hreq
    exact absurd hreq (by simp)
  · rw [if_neg hurl] at hreq
    have hreqeq := Option.some.inj hreq
    simp only [serverCreateItem] at hsrv
    by_cases hlim : u.plan_type ≠ "pro" ∧
        freeLimit ≤
          (srv.itemsDb.filter (fun it => it.user_id == u.id)).length
    · rw [if_pos hlim] at hsrv
      exact absurd (congrArg Prod.snd hsrv) (by simp)
    · rw [if_neg hlim] at hsrv
      rw [Prod.mk.injEq] at hsrv
      obtain ⟨hsrv2, hresp⟩ := hsrv
      injection hresp with hitem
      refine ⟨?_, ?_, ?_, ?_⟩
      · rw [← hreqeq]
      · rw [← hitem, ← hreqeq]
      · rw [← hsrv2, ← hitem]
        simp [serverGetItem, List.find?]
      · rfl

/-- Witness for C4 at a concrete add-item state with two tags. -/
theorem c4_witness :
    sampleCreateRequest.tags = sampleAddState.tags
    ∧ sampleCreatedItem.tags = sampleAddState.tags
    ∧ serverGetItem (ServerState.mk [sampleCreatedItem]) "it9" =
        some sampleCreatedItem
    ∧ (addItem (ClientState.mk [] [])
        (ApiResponse.ok sampleCreatedItem)).1.items = [sampleCreatedItem] :=
  c4_tags_roundtrip sampleAddState sampleCreateRequest 500 "it9"
    "2025-01-02" sampleUser ⟨[]⟩ ⟨[sampleCreatedItem]⟩ sampleCreatedItem
    ⟨[], []⟩ (by decide) (by decide)

/-- In every reachable state of a per-action request machine, the number
of outstanding requests equals 1 exactly while the in-flight flag is
set. -/
theorem actionReachable_invariant :
    ∀ s : ActionState, ActionReachable s →
      s.inFlight = (if s.flag then 1 else 0) := by
  intro s h
  induction h with
  | init => rfl
  | step s t hr hstep ih =>
      cases hstep with
      | press henabled =>
          simp [henabled] at ih
          simp [ih]
      | complete n hpending =>
          rw [hpending] at ih
          simp only [ActionState.flag, ActionState.inFlight]
          split at ih <;> simp <;> omega

/-- C7: single in-flight request per user action — since the trigger
control is disabled exactly while the in-flight flag is set, no reachable
state of the per-action machine holds more than one outstanding request;
the machine is shared by isGeneratingSummary and the other per-action
flags of the item detail screen. -/
theorem c7_single_inflight :
    ∀ s : ActionState, ActionReachable s → s.inFlight ≤ 1 := by
  intro s h
  have hinv := actionReachable_invariant s h
  cases hflag : s.flag
  · rw [hflag] at hinv
    simp at hinv
    omega
  · rw [hflag] at hinv
    simp at hinv
    omega

/-- Witness for C7 at the state reached by one press. -/
theorem c7_witness : pressedActionState.inFlight ≤ 1 :=
  c7_single_inflight pressedActionState
    (ActionReachable.step initialActionState pressedActionState
      ActionReachable.init (ActionStep.press initialActionState rfl))

/-- C8: auth-state invariant — in every state reachable from the initial
state or a persistence rehydration by login, register, logout and
checkAuth, isAuthenticated implies a non-null token; and logout always
yields user = null, token = null, isAuthenticated = false. -/
theorem c8_auth_invariant :
    (∀ st : AuthState, AuthReachable st →
        st.isAuthenticated = true → st.token.isSome = true)
    ∧ (∀ st : AuthState,
        (logout st).user = none ∧ (logout st).token = none
          ∧ (logout st).isAuthenticated = false) := by
  constructor
  · intro st h
    induction h with
    | init => intro hh; exact absurd hh (by simp [initialAuthState])
    | rehydrated t u =>
        intro hh
        exact absurd hh (by simp [rehydrate, initialAuthState])
    | step st op hr ih =>
        cases op with
        | login r =>
            cases r with
            | success tok u => intro _; rfl
            | failure d => exact ih
        | register r =>
            cases r with
            | success tok u => intro _; rfl
            | failure d => exact ih
        | logout =>
            intro hh
            exact absurd hh (by simp [authStep, logout])
        | checkAuth r =>
            show (checkAuth st r).isAuthenticated = true →
              (checkAuth st r).token.isSome = true
            unfold checkAuth
            cases htok : st.token with
            | none => intro hh; exact absurd hh (by simp)
            | some tk =>
                cases r with
                | success u => intro _; simp
                | failure => intro hh; exact absurd hh (by simp)
  · intro st
    exact ⟨rfl, rfl, rfl⟩

/-- Witness for C8: a login from the initial state keeps the invariant,
and logout from a rehydrated state clears everything. -/
theorem c8_witness :
    (authStep initialAuthState
        (AuthOp.login (AuthResult.success "tok" sampleUser))).token.isSome =
      true
    ∧ ((logout (rehydrate (some "tok") none)).user = none
        ∧ (logout (rehydrate (some "tok") none)).token = none
        ∧ (logout (rehydrate (some "tok") none)).isAuthenticated = false) :=
  ⟨c8_auth_invariant.1 _
      (AuthReachable.step initialAuthState
        (AuthOp.login (AuthResult.success "tok" sampleUser))
        AuthReachable.init) rfl,
   c8_auth_invariant.2 (rehydrate (some "tok") none)⟩

/-- C10: tag-list normalization — handleAddTag inserts the input trimmed
and lowercased when it is fresh and nonempty, never inserts a duplicate,
always resets the input field, and a duplicate-free tag list stays
duplicate-free under any sequence of input edits, handleAddTag,
handleRemoveTag and applySmartTag steps. -/
theorem c10_tag_normalization :
    (∀ st : TagEditorState,
        jsToLower (jsTrim st.tagInput) ≠ "" →
        jsToLower (jsTrim st.tagInput) ∉ st.tags →
        handleAddTag st =
          { st with tags := st.tags ++ [jsToLower (jsTrim st.tagInput)],
                    tagInput := "" })
    ∧ (∀ st : TagEditorState, (handleAddTag st).tagInput = "")
    ∧ (∀ st : TagEditorState, st.tags.Nodup → (handleAddTag st).tags.Nodup)
    ∧ (∀ (st : TagEditorState) (steps : List TagStep),
        st.tags.Nodup → (runTagSteps st steps).tags.Nodup) := by
  refine ⟨?_, ?_, ?_, ?_⟩
  · intro st h1 h2
    simp only [handleAddTag]
    rw [if_pos ⟨h1, h2⟩]
  · intro st
    simp only [handleAddTag]
    split <;> rfl
  · intro st h
    exact tagStep_nodup st TagStep.add h
  · intro st steps h
    induction steps generalizing st with
    | nil => exact h
    | cons s rest ih => exact ih (tagStep st s) (tagStep_nodup st s h)

/-- Witness for C10 at a concrete editor state whose input needs both
trimming and lowercasing. -/
theorem c10_witness :
    handleAddTag tagWitnessState =
      { tagWitnessState with
          tags := tagWitnessState.tags ++
            [jsToLower (jsTrim tagWitnessState.tagInput)],
          tagInput := "" }
    ∧ (handleAddTag tagWitnessState).tagInput = ""
    ∧ (handleAddTag tagWitnessState).tags.Nodup
    ∧ (runTagSteps tagWitnessState [TagStep.add]).tags.Nodup :=
  ⟨c10_tag_normalization.1 tagWitnessState (by decide) (by decide),
   c10_tag_normalization.2.1 tagWitnessState,
   c10_tag_normalization.2.2.1 tagWitnessState (by decide),
   c10_tag_normalization.2.2.2 tagWitnessState [TagStep.add] (by decide)⟩

end Stash
